import Mathlib

/-!
Verification development for `pan_cached_dataset.py`: a shallow embedding of the
line-oriented Pangaea-format parser (`PanFileDataSet._load`), its lazy `data`
accessor, and the `PanCachedDataSet` composition layer, together with theorems
settling the specification claims about them.

Files are modelled as lists of lines (strings without their trailing newline);
a file system is a partial map from paths to such line lists.  Python string
primitives (`str.strip`, `str.split` with and without `maxsplit=1`) are
modelled structurally on the character list of the string, matching Python
semantics; Python exceptions are modelled by the `PyErr` error type, and the
in-place mutation of the record during `_load` by explicit state passing that
preserves the partially mutated record when an exception is raised.
-/

namespace PangaeaReader

/-- Python `s.split(c)` on the character list: no collapsing of empty parts,
`"".split(c) == [""]`. -/
def splitOnChar (c : Char) : List Char → List (List Char)
  | [] => [[]]
  | a :: rest =>
    let r := splitOnChar c rest
    if a = c then [] :: r
    else
      match r with
      | [] => [[a]]
      | x :: xs => (a :: x) :: xs

/-- Python `s.split(c)` (no `maxsplit`), e.g. `line.split("\t")` for the header
and `value.split(";")` for keywords. -/
def pySplit (c : Char) (s : String) : List String :=
  (splitOnChar c s.data).map String.mk

/-- Python `s.split(c, maxsplit=1)`: one part when `c` does not occur in `s`,
otherwise the text before the first `c` and the remainder after it. -/
def pySplitOnce (c : Char) (s : String) : List String :=
  if s.data.contains c then
    [String.mk (s.data.takeWhile (fun a => a ≠ c)),
     String.mk ((s.data.dropWhile (fun a => a ≠ c)).tail)]
  else [s]

/-- Python `s.strip()`: remove leading and trailing whitespace. -/
def pyStrip (s : String) : String :=
  String.mk (((s.data.dropWhile Char.isWhitespace).reverse.dropWhile
    Char.isWhitespace).reverse)

/-- `line.split("\t", maxsplit=1)` — the description-line field split. -/
def splitFirstTab (s : String) : List String := pySplitOnce '\t' s

/-- `h.split("[", maxsplit=1)[0].strip()` — the base column name of a header
field: text before the first `[`, stripped. -/
def baseName (h : String) : String := pyStrip ((pySplitOnce '[' h).headD h)

/-- `PanFileDataSetState` — outer parser state. -/
inductive PanFileDataSetState
  | INIT
  | DESCRIPTION
  | HEADER
  | DATA
  | END
deriving DecidableEq, Repr

/-- `PanFileDataSetDescriptionState` — description sub state. -/
inductive PanFileDataSetDescriptionState
  | INIT
  | CITATION
  | ABSTRACT
  | KEYWORDS
  | PARAMETERS
  | SIZE
  | LICENSE
  | FURTHER_DETAILS
  | END
deriving DecidableEq, Repr

/-- The tabular data body: column names plus rows of string fields. -/
structure Table where
  columns : List String
  rows : List (List String)
deriving DecidableEq, Repr

/-- Python exceptions that the code under analysis can raise, plus the
spec's `MalformedFileError` kind surfaced by the tabular loader.
`fileNotFound` is Python `FileNotFoundError` (the spec's `NotFoundError`),
`valueError` is Python `ValueError` (the spec's `ConfigurationError`),
`attributeError` / `typeError` are Python `AttributeError` / `TypeError`. -/
inductive PyErr
  | fileNotFound
  | malformedFile
  | valueError
  | attributeError
  | typeError
deriving DecidableEq, Repr

/-- The mutable attributes of a `PanFileDataSet` object. `keywords` is an
`Option` because `self.keywords = self.keywords.append(...)` in the
continuation branch assigns Python `None` to the attribute. -/
structure PanFileDataSet where
  file_path : String
  _header : Option (List String)
  _data : Option Table
  loaded : Bool
  _columns : Option (List String)
  citations : Option String
  parameters : List String
  keywords : Option (List String)
  size : Option String
  license : Option String
  further_details : Option String
  abstract : Option String
deriving DecidableEq, Repr

/-- `PanFileDataSet.__init__(self, file_path)`. -/
def mkPanFileDataSet (file_path : String) : PanFileDataSet where
  file_path := file_path
  _header := none
  _data := none
  loaded := false
  _columns := none
  citations := none
  parameters := []
  keywords := some []
  size := none
  license := none
  further_details := none
  abstract := none

/-- A file system: a partial map from paths to the file's list of lines. -/
def FileSys : Type := String → Option (List String)

/-- The local state of one `_load` call: the outer state, the description sub
state, the `skiprows` counter, and the record being mutated. -/
structure LoadState where
  state : PanFileDataSetState
  descriptionState : PanFileDataSetDescriptionState
  skiprows : Nat
  ds : PanFileDataSet
deriving DecidableEq, Repr

/-- The state at the top of `_load`: both state machines at `INIT`,
`skiprows = 0`. -/
def initLoadState (ds : PanFileDataSet) : LoadState where
  state := .INIT
  descriptionState := .INIT
  skiprows := 0
  ds := ds

/-- The seven metadata attributes, bundled for invariant statements. -/
def metadataOf (ds : PanFileDataSet) :
    Option String × Option String × Option (List String) × List String ×
      Option String × Option String × Option String :=
  (ds.citations, ds.abstract, ds.keywords, ds.parameters, ds.size, ds.license,
    ds.further_details)

/-- One description-block line (the branch under
`elif state == PanFileDataSetState.DESCRIPTION`).  The line is already
stripped.  Returns the possibly mutated state and a raised exception, if any;
on an exception the state already mutated up to that point is preserved. -/
def processDescriptionLine (st : LoadState) (line : String) :
    LoadState × Option PyErr :=
  match splitFirstTab line with
  | [f, value] =>
    let field := pyStrip f
    if field = "Citation:" then
      ({ st with ds := { st.ds with citations := some value },
                 descriptionState := .CITATION }, none)
    else if field = "Abstract:" then
      ({ st with ds := { st.ds with abstract := some value },
                 descriptionState := .ABSTRACT }, none)
    else if field = "Keyword(s):" then
      ({ st with ds := { st.ds with keywords := some (pySplit ';' value) },
                 descriptionState := .KEYWORDS }, none)
    else if field = "Parameter(s):" then
      ({ st with ds := { st.ds with parameters := st.ds.parameters ++ [value] },
                 descriptionState := .PARAMETERS }, none)
    else if field = "Size:" then
      ({ st with ds := { st.ds with size := some value },
                 descriptionState := .SIZE }, none)
    else if field = "License:" then
      ({ st with ds := { st.ds with license := some value },
                 descriptionState := .LICENSE }, none)
    else if field = "Further Details:" then
      ({ st with ds := { st.ds with further_details := some value },
                 descriptionState := .FURTHER_DETAILS }, none)
    else (st, none)
  | [value] =>
    match st.descriptionState with
    | .PARAMETERS =>
      ({ st with ds := { st.ds with parameters := st.ds.parameters ++ [value] } },
        none)
    | .KEYWORDS =>
      match st.ds.keywords with
      | some _ => ({ st with ds := { st.ds with keywords := none } }, none)
      | none => (st, some .attributeError)
    | .FURTHER_DETAILS =>
      match st.ds.further_details with
      | some s => ({ st with ds := { st.ds with further_details := some (s ++ value) } }, none)
      | none => (st, some .typeError)
    | .ABSTRACT =>
      match st.ds.abstract with
      | some s => ({ st with ds := { st.ds with abstract := some (s ++ value) } }, none)
      | none => (st, some .typeError)
    | .CITATION =>
      match st.ds.citations with
      | some s => ({ st with ds := { st.ds with citations := some (s ++ value) } }, none)
      | none => (st, some .typeError)
    | .LICENSE =>
      match st.ds.license with
      | some s => ({ st with ds := { st.ds with license := some (s ++ value) } }, none)
      | none => (st, some .typeError)
    | .SIZE =>
      match st.ds.size with
      | some s => ({ st with ds := { st.ds with size := some (s ++ value) } }, none)
      | none => (st, some .typeError)
    | .INIT => (st, none)
    | .END => (st, none)
  | _ => (st, none)

/-- The header deduplication loop (`for h in self._header:`), with
`columns_map` modelled as a total function that is `0` on absent keys. -/
def dedupGo : List String → (String → Nat) → List String
  | [], _ => []
  | h :: rest, m =>
    let b := baseName h
    if m b ≠ 0 then
      (b ++ "_" ++ Nat.repr (m b + 1)) ::
        dedupGo rest (fun k => if k = b then m b + 1 else m k)
    else
      b :: dedupGo rest (fun k => if k = b then 1 else m k)

/-- Column deduplication starting from an empty `columns_map`. -/
def dedupHeader (hdr : List String) : List String := dedupGo hdr (fun _ => 0)

/-- The header branch (`elif state == PanFileDataSetState.HEADER`): split the
stripped line on tabs, build the deduplicated columns, move to `DATA`. -/
def processHeader (st : LoadState) (line : String) : LoadState :=
  let hdr := pySplit '\t' line
  { st with
      ds := { st.ds with _header := some hdr, _columns := some (dedupHeader hdr) },
      state := .DATA }

/-- What the loop does after processing one line. -/
inductive Ctl
  | next
  | brk
  | err (e : PyErr)
deriving DecidableEq, Repr

/-- One iteration of the `for line in file:` loop: strip the line, bump
`skiprows`, then dispatch on the marker tests and the outer state. -/
def processLine (st : LoadState) (raw : String) : LoadState × Ctl :=
  let line := pyStrip raw
  let st := { st with skiprows := st.skiprows + 1 }
  if line = "/* DATA DESCRIPTION:" then
    ({ st with state := .DESCRIPTION }, .next)
  else if line = "*/" then
    ({ st with state := .HEADER }, .next)
  else if st.state = .DESCRIPTION then
    match processDescriptionLine st line with
    | (st', none) => (st', .next)
    | (st', some e) => (st', .err e)
  else if st.state = .HEADER then
    (processHeader st line, .brk)
  else
    (st, .next)

/-- The whole `for line in file:` loop: runs `processLine` over the lines,
stopping at the `break` after the header or at a raised exception (whose
partially mutated state is preserved). -/
def loadLoop : List String → LoadState → LoadState × Option PyErr
  | [], st => (st, none)
  | l :: ls, st =>
    match processLine st l with
    | (st', .next) => loadLoop ls st'
    | (st', .brk) => (st', none)
    | (st', .err e) => (st', some e)

/-- Modelled from the spec: the Tabular Loader of section 4.2 is implemented
by the external `pandas.read_csv(file_path, sep="\t", skiprows=skiprows,
names=self._columns)` call, whose code is not part of this repository.  Per
the spec it reads the file as tab-delimited text, skips the first `skip`
lines, assigns the supplied column names positionally, and fails with
`MalformedFileError` when no column list was established or when a row's
field count does not align with the columns. -/
def tabularLoad (lines : List String) (skip : Nat)
    (names : Option (List String)) : Except PyErr Table :=
  match names with
  | none => .error .malformedFile
  | some cols =>
    let rows := (lines.drop skip).map (fun r => pySplit '\t' r)
    if rows.all (fun r => r.length == cols.length) then
      .ok { columns := cols, rows := rows }
    else
      .error .malformedFile

/-- `PanFileDataSet._load(self)`: early return when `loaded`, existence check,
the line loop, then the tabular load and setting `loaded`.  Returns the
mutated record together with the raised exception, if any: Python mutates the
record in place, so mutations made before an exception persist. -/
def PanFileDataSet.loadStep (fs : FileSys) (ds : PanFileDataSet) :
    PanFileDataSet × Option PyErr :=
  if ds.loaded then (ds, none)
  else
    match fs ds.file_path with
    | none => (ds, some .fileNotFound)
    | some lines =>
      match loadLoop lines (initLoadState ds) with
      | (st, some e) => (st.ds, some e)
      | (st, none) =>
        match tabularLoad lines st.skiprows st.ds._columns with
        | .error e => (st.ds, some e)
        | .ok t => ({ st.ds with _data := some t, loaded := true }, none)

/-- The `data` property: `self._load()` then `return self._data`. -/
def PanFileDataSet.dataAccess (fs : FileSys) (ds : PanFileDataSet) :
    PanFileDataSet × Except PyErr (Option Table) :=
  match ds.loadStep fs with
  | (ds', none) => (ds', .ok ds'._data)
  | (ds', some e) => (ds', .error e)

/-- The value stored in `PanCachedDataSet._data_set`: either a local
`PanFileDataSet` or the external `pangaeapy` remote data set, which is an
outside collaborator and is recorded here only by its constructor arguments
`(self.index, enable_cache=self.enable_cache, cache_expiry_days=60)`. -/
inductive DataSetChoice
  | file (ds : PanFileDataSet)
  | remote (idx : Option Nat) (enable_cache : Bool) (cache_expiry_days : Nat)
deriving DecidableEq, Repr

/-- The attributes of a `PanCachedDataSet` object. -/
structure PanCachedDataSet where
  index : Option Nat
  file_path : Option String
  enable_cache : Bool
  _data_set : Option DataSetChoice
deriving DecidableEq, Repr

/-- `PanCachedDataSet.__init__(self, pangaea_index=None, file_path=None,
enable_cache=True)`. -/
def mkPanCachedDataSet (pangaea_index : Option Nat) (file_path : Option String)
    (enable_cache : Bool) : PanCachedDataSet where
  index := pangaea_index
  file_path := file_path
  enable_cache := enable_cache
  _data_set := none

/-- The `data_set` property: return the cached choice if set; raise
`ValueError` when neither index nor file path is set; otherwise select the
local file when the path exists, else the remote collaborator.  Returns the
record with its `_data_set` attribute updated. -/
def PanCachedDataSet.dataSetAccess (fs : FileSys) (c : PanCachedDataSet) :
    Except PyErr (PanCachedDataSet × DataSetChoice) :=
  match c._data_set with
  | some d => .ok (c, d)
  | none =>
    if c.index = none ∧ c.file_path = none then
      .error .valueError
    else
      match c.file_path with
      | some p =>
        if (fs p).isSome then
          let d := DataSetChoice.file (mkPanFileDataSet p)
          .ok ({ c with _data_set := some d }, d)
        else
          let d := DataSetChoice.remote c.index c.enable_cache 60
          .ok ({ c with _data_set := some d }, d)
      | none =>
        let d := DataSetChoice.remote c.index c.enable_cache 60
        .ok ({ c with _data_set := some d }, d)

/-- The `data` property of `PanCachedDataSet`: `self.data_set.data`.  The
remote collaborator's `data` is external code, passed in as a function of the
constructor arguments it was built from. -/
def PanCachedDataSet.cachedData (fs : FileSys)
    (remoteData : Option Nat → Bool → Nat → Except PyErr (Option Table))
    (c : PanCachedDataSet) : Except PyErr (PanCachedDataSet × Option Table) :=
  match c.dataSetAccess fs with
  | .error e => .error e
  | .ok (c', .file ds) =>
    match ds.dataAccess fs with
    | (ds', .ok t) => .ok ({ c' with _data_set := some (.file ds') }, t)
    | (_, .error e) => .error e
  | .ok (c', .remote i b n) =>
    match remoteData i b n with
    | .ok t => .ok (c', t)
    | .error e => .error e

end PangaeaReader

namespace PangaeaReader

/-! ## Frame lemmas for the line processor -/

theorem processDescriptionLine_frame (st : LoadState) (line : String) :
    ((processDescriptionLine st line).1).state = st.state ∧
    ((processDescriptionLine st line).1).skiprows = st.skiprows ∧
    ((processDescriptionLine st line).1).ds.loaded = st.ds.loaded ∧
    ((processDescriptionLine st line).1).ds._columns = st.ds._columns ∧
    ((processDescriptionLine st line).1).ds._header = st.ds._header ∧
    ((processDescriptionLine st line).1).ds._data = st.ds._data ∧
    ((processDescriptionLine st line).1).ds.file_path = st.ds.file_path := by
  obtain ⟨s, d, sk, ds⟩ := st
  obtain ⟨fp, hd, da, ld, co, ci, pa, kw, sz, li, fu, ab⟩ := ds
  rcases h : splitFirstTab line with - | ⟨f, - | ⟨v, - | ⟨w, rest⟩⟩⟩ <;>
    simp only [processDescriptionLine, h]
  · simp
  · cases d <;>
      first
        | (solve | simp)
        | (cases kw <;> (solve | simp))
        | (cases fu <;> (solve | simp))
        | (cases ab <;> (solve | simp))
        | (cases ci <;> (solve | simp))
        | (cases li <;> (solve | simp))
        | (cases sz <;> (solve | simp))
  · split_ifs <;> simp
  · simp

/-- Case analysis for one loop iteration: either the line yields `next` with a
state whose bookkeeping fields are only bumped, or the `break` after the
header, or an exception raised inside the description block. -/
theorem processLine_spec (st : LoadState) (raw : String) :
    (∃ st', processLine st raw = (st', Ctl.next) ∧
        st'.skiprows = st.skiprows + 1 ∧ st'.ds.loaded = st.ds.loaded ∧
        st'.ds._data = st.ds._data ∧ st'.ds._columns = st.ds._columns ∧
        st'.ds._header = st.ds._header ∧
        st'.ds.file_path = st.ds.file_path ∧
        (st.state ≠ .DATA → st'.state ≠ .DATA) ∧
        (pyStrip raw ≠ "*/" → st.state ≠ .HEADER → st'.state ≠ .HEADER)) ∨
    (processLine st raw =
        (processHeader { st with skiprows := st.skiprows + 1 } (pyStrip raw),
          Ctl.brk) ∧
      st.state = .HEADER ∧ pyStrip raw ≠ "*/") ∨
    (∃ st' e, processLine st raw = (st', Ctl.err e) ∧
        st.state = .DESCRIPTION ∧ st'.state = st.state ∧
        st'.skiprows = st.skiprows + 1 ∧ st'.ds.loaded = st.ds.loaded ∧
        st'.ds._data = st.ds._data ∧ st'.ds._columns = st.ds._columns ∧
        st'.ds._header = st.ds._header ∧
        st'.ds.file_path = st.ds.file_path) := by
  simp only [processLine]
  split_ifs with h1 h2 h3 h4
  · exact .inl ⟨_, rfl, by simp, by simp, by simp, by simp, by simp, by simp,
      fun _ => by simp, fun _ _ => by simp⟩
  · exact .inl ⟨_, rfl, by simp, by simp, by simp, by simp, by simp, by simp,
      fun _ => by simp, fun hne _ => absurd h2 hne⟩
  · rcases hpd : processDescriptionLine { st with skiprows := st.skiprows + 1 }
        (pyStrip raw) with ⟨s', e?⟩
    have hfr := processDescriptionLine_frame
      { st with skiprows := st.skiprows + 1 } (pyStrip raw)
    rw [hpd] at hfr
    obtain ⟨hf1, hf2, hf3, hf4, hf5, hf6, hf7⟩ := hfr
    dsimp only at hf1 hf2 hf3 hf4 hf5 hf6 hf7
    cases e? with
    | none =>
      exact .inl ⟨s', rfl, hf2, hf3, hf6, hf4, hf5, hf7,
        fun _ => by rw [hf1, h3]; simp,
        fun _ _ => by rw [hf1, h3]; simp⟩
    | some e =>
      exact .inr (.inr ⟨s', e, rfl, h3, hf1, hf2, hf3, hf6, hf4, hf5,
        hf7⟩)
  · exact .inr (.inl ⟨rfl, h4, h2⟩)
  · exact .inl ⟨_, rfl, by simp, by simp, by simp, by simp, by simp, by simp,
      fun h => by simpa using h, fun _ h => by simpa using h⟩

/-- The loop never touches the `loaded` flag. -/
theorem loadLoop_loaded (lines : List String) : ∀ st : LoadState,
    ((loadLoop lines st).1).ds.loaded = st.ds.loaded := by
  induction lines with
  | nil => intro st; rfl
  | cons l ls ih =>
    intro st
    rcases processLine_spec st l with
      ⟨st', hp, -, hld, -⟩ | ⟨hp, -⟩ | ⟨st', e, hp, -, -, -, hld, -⟩
    · rw [loadLoop, hp]
      exact (ih st').trans hld
    · rw [loadLoop, hp]
      simp [processHeader]
    · rw [loadLoop, hp]
      exact hld

/-- If the loop ends without an exception and the column list went from
unset to set, the loop broke at a header line: the consumed lines are some
prefix `pre` followed by the header line, `skiprows` counts exactly those
lines, and the header and deduplicated columns come from that line. -/
theorem loadLoop_establish_columns (lines : List String) :
    ∀ st st' : LoadState,
    st.ds._columns = none → loadLoop lines st = (st', none) →
    st'.ds._columns ≠ none →
    ∃ pre header post,
      lines = pre ++ header :: post ∧
      st'.skiprows = st.skiprows + pre.length + 1 ∧
      st'.ds._header = some (pySplit '\t' (pyStrip header)) ∧
      st'.ds._columns = some (dedupHeader (pySplit '\t' (pyStrip header))) ∧
      st'.state = .DATA ∧
      st'.ds._data = st.ds._data ∧ st'.ds.loaded = st.ds.loaded := by
  induction lines with
  | nil =>
    intro st st' h0 hrun hcol
    rw [loadLoop] at hrun
    cases hrun
    exact absurd h0 hcol
  | cons l ls ih =>
    intro st st' h0 hrun hcol
    rcases processLine_spec st l with
      ⟨st'', hp, hsk, hld, hdt, hco, -⟩ | ⟨hp, -⟩ |
      ⟨st'', e, hp, -⟩
    · rw [loadLoop, hp] at hrun
      obtain ⟨pre, header, post, heq, hsk', hh, hc, hst, hdt', hld'⟩ :=
        ih st'' st' (hco.trans h0) hrun hcol
      refine ⟨l :: pre, header, post, by rw [heq, List.cons_append], ?_, hh, hc,
        hst, hdt'.trans hdt, hld'.trans hld⟩
      rw [hsk', hsk]
      simp only [List.length_cons]
      omega
    · rw [loadLoop, hp] at hrun
      have hrun' :
          (processHeader { st with skiprows := st.skiprows + 1 } (pyStrip l),
            (none : Option PyErr)) = (st', none) := hrun
      injection hrun' with h1 h2
      subst h1
      refine ⟨[], l, ls, rfl, ?_, ?_, ?_, ?_, ?_, ?_⟩ <;>
        simp [processHeader]
    · rw [loadLoop, hp] at hrun
      have hrun' : (some e : Option PyErr) = none := congrArg Prod.snd hrun
      exact absurd hrun' (by simp)

/-- If no line of the file strips to the end marker and the outer state is not
`HEADER`, the loop consumes every line: `skiprows` grows by the number of
lines, and header, columns, `loaded` and data stay untouched. -/
theorem loadLoop_no_end_marker (lines : List String) : ∀ st : LoadState,
    (∀ l ∈ lines, pyStrip l ≠ "*/") → st.state ≠ .HEADER →
    (loadLoop lines st).2 = none →
    (loadLoop lines st).1.skiprows = st.skiprows + lines.length ∧
    (loadLoop lines st).1.ds._columns = st.ds._columns ∧
    (loadLoop lines st).1.ds._header = st.ds._header ∧
    (loadLoop lines st).1.ds.loaded = st.ds.loaded := by
  induction lines with
  | nil => intro st _ _ _; simp [loadLoop]
  | cons l ls ih =>
    intro st hmk hH hrun
    rcases processLine_spec st l with
      ⟨st'', hp, hsk, hld, hdt, hco, hhd, -, -, hHpres⟩ | ⟨hp, hst, -⟩ |
      ⟨st'', e, hp, -⟩
    · rw [loadLoop, hp] at hrun ⊢
      have hH' : st''.state ≠ .HEADER :=
        hHpres (hmk l (List.mem_cons_self l ls)) hH
      obtain ⟨ihsk, ihco, ihhd, ihld⟩ :=
        ih st'' (fun x hx => hmk x (List.mem_cons_of_mem l hx)) hH' hrun
      refine ⟨?_, ihco.trans hco, ihhd.trans hhd, ihld.trans hld⟩
      rw [ihsk, hsk]
      simp only [List.length_cons]
      omega
    · exact absurd hst hH
    · rw [loadLoop, hp] at hrun
      exact absurd hrun (by simp)

/-- Occurrence count of a string in a list. -/
def countOcc (k : String) : List String → Nat
  | [] => 0
  | a :: l => (if a = k then 1 else 0) + countOcc k l

theorem countOcc_append (k : String) (l1 l2 : List String) :
    countOcc k (l1 ++ l2) = countOcc k l1 + countOcc k l2 := by
  induction l1 with
  | nil => simp [countOcc]
  | cons a l ihl => simp [countOcc, ihl, Nat.add_assoc]

/-- The specification's description of column deduplication, written directly
from its words: walking the header left to right, the `n`-th occurrence of a
base name `b` (counted over the base names of the fields already consumed,
held in `pre`) keeps the bare name `b` when `n = 1` and becomes `b_n`
otherwise. -/
def dedupSpecGo : List String → List String → List String
  | _, [] => []
  | pre, h :: rest =>
    let b := baseName h
    let n := countOcc b (pre.map baseName) + 1
    (if n = 1 then b else b ++ "_" ++ Nat.repr n) :: dedupSpecGo (pre ++ [h]) rest

/-- The code's deduplication loop agrees with the specification's occurrence
counting description, for any map agreeing with the occurrence counts of the
already-consumed prefix. -/
theorem dedupGo_eq_spec (rest : List String) : ∀ (pre : List String)
    (m : String → Nat), (∀ k, m k = countOcc k (pre.map baseName)) →
    dedupGo rest m = dedupSpecGo pre rest := by
  induction rest with
  | nil => intro pre m hm; rfl
  | cons h rest ih =>
    intro pre m hm
    have hb := hm (baseName h)
    simp only [dedupGo, dedupSpecGo]
    by_cases h0 : m (baseName h) = 0
    · rw [if_neg (by simp [h0]), if_pos (by omega)]
      congr 1
      refine ih (pre ++ [h]) _ (fun k => ?_)
      rw [List.map_append, countOcc_append, ← hm k]
      simp only [List.map_cons, List.map_nil, countOcc]
      by_cases hk : k = baseName h
      · subst hk
        simp [h0]
      · simp [hk, Ne.symm hk]
    · rw [if_pos h0, if_neg (by omega), hb]
      congr 1
      refine ih (pre ++ [h]) _ (fun k => ?_)
      rw [List.map_append, countOcc_append, ← hm k]
      simp only [List.map_cons, List.map_nil, countOcc]
      by_cases hk : k = baseName h
      · subst hk
        simp [← hb]
      · simp [hk, Ne.symm hk]

/-- A `_load` call that returns without an exception has set `loaded`. -/
theorem loadStep_success_loaded (fs : FileSys) (ds ds' : PanFileDataSet)
    (h : ds.loadStep fs = (ds', none)) : ds'.loaded = true := by
  unfold PanFileDataSet.loadStep at h
  by_cases hl : ds.loaded = true
  · rw [if_pos hl] at h
    injection h with h1 h2
    subst h1
    exact hl
  · rw [if_neg hl] at h
    cases hfs : fs ds.file_path with
    | none =>
      rw [hfs] at h
      injection h with h1 h2
      exact Option.noConfusion h2
    | some lines =>
      rw [hfs] at h
      dsimp only at h
      rcases hlp : loadLoop lines (initLoadState ds) with ⟨st, e?⟩
      rw [hlp] at h
      cases e? with
      | some e =>
        injection h with h1 h2
        exact Option.noConfusion h2
      | none =>
        dsimp only at h
        cases htab : tabularLoad lines st.skiprows st.ds._columns with
        | error e =>
          rw [htab] at h
          injection h with h1 h2
          exact Option.noConfusion h2
        | ok t =>
          rw [htab] at h
          injection h with h1 h2
          subst h1
          rfl

/-- A `_load` call that raises an exception leaves `loaded` unset. -/
theorem loadStep_error_not_loaded (fs : FileSys) (ds p : PanFileDataSet)
    (e : PyErr) (h : ds.loadStep fs = (p, some e)) : p.loaded = false := by
  unfold PanFileDataSet.loadStep at h
  by_cases hl : ds.loaded = true
  · rw [if_pos hl] at h
    injection h with h1 h2
    exact Option.noConfusion h2
  · have hl' : ds.loaded = false := by simpa using hl
    rw [if_neg hl] at h
    cases hfs : fs ds.file_path with
    | none =>
      rw [hfs] at h
      injection h with h1 h2
      subst h1
      exact hl'
    | some lines =>
      rw [hfs] at h
      dsimp only at h
      rcases hlp : loadLoop lines (initLoadState ds) with ⟨st, e?⟩
      have hld : st.ds.loaded = ds.loaded := by
        have := loadLoop_loaded lines (initLoadState ds)
        rw [hlp] at this
        exact this
      rw [hlp] at h
      cases e? with
      | some e' =>
        injection h with h1 h2
        subst h1
        exact hld.trans hl'
      | none =>
        dsimp only at h
        cases htab : tabularLoad lines st.skiprows st.ds._columns with
        | error e' =>
          rw [htab] at h
          injection h with h1 h2
          subst h1
          exact hld.trans hl'
        | ok t =>
          rw [htab] at h
          injection h with h1 h2
          exact Option.noConfusion h2

/-! ## Concrete fixtures -/

/-- A well-formed file with a multi-line citation. -/
def fileCitation : List String :=
  ["/* DATA DESCRIPTION:", "Citation:\tSmith 2020", "and Jones", "*/",
    "A\tB", "1\t2"]

def fsCitation : FileSys := fun p => if p = "f" then some fileCitation else none

/-- A well-formed file whose header has a repeated base name. -/
def fileDepth : List String :=
  ["/* DATA DESCRIPTION:", "*/", "Depth [m]\tTemp\tDepth [cm]", "1\t2\t3"]

def fsDepth : FileSys := fun p => if p = "f" then some fileDepth else none

/-- A header whose second `A` is renamed to `A_2`, colliding with the
distinct base name `A_2`. -/
def fileDup : List String :=
  ["/* DATA DESCRIPTION:", "*/", "A\tA_2\tA", "1\t2\t3"]

def fsDup : FileSys := fun p => if p = "f" then some fileDup else none

/-- No end marker, and two keyword continuation lines: the second raises
`AttributeError` before the last line is consumed. -/
def fileKwErr : List String :=
  ["/* DATA DESCRIPTION:", "Keyword(s):\ta", "b", "c", "d"]

def fsKwErr : FileSys := fun p => if p = "f" then some fileKwErr else none

/-- A well-formed file with a keyword continuation line. -/
def fileKwCont : List String :=
  ["/* DATA DESCRIPTION:", "Keyword(s):\tocean;salinity", "more", "*/",
    "A", "1"]

def fsKwCont : FileSys := fun p => if p = "f" then some fileKwCont else none

/-- A file with one parameter line and no end marker: the table load fails,
but the parameter mutation persists. -/
def fileParam : List String :=
  ["/* DATA DESCRIPTION:", "Parameter(s):\tdepth"]

def fsParam : FileSys := fun p => if p = "f" then some fileParam else none

/-- The empty file system. -/
def fsEmpty : FileSys := fun _ => none

/-- Decidable check that no line of a file strips to the end marker. -/
def noEndMarker (ls : List String) : Bool :=
  ls.all (fun l => !(pyStrip l == "*/"))

/-- A parser state in the middle of a description block with the keyword
field open. -/
def stKwSt : LoadState where
  state := .DESCRIPTION
  descriptionState := .KEYWORDS
  skiprows := 2
  ds := { mkPanFileDataSet "f" with keywords := some ["ocean", "salinity"] }

/-- A parser state in the middle of a description block with the citation
field open. -/
def stCitSt : LoadState where
  state := .DESCRIPTION
  descriptionState := .CITATION
  skiprows := 2
  ds := { mkPanFileDataSet "f" with citations := some "Smith 2020" }

/-- An already loaded record. -/
def dsLoaded : PanFileDataSet :=
  { mkPanFileDataSet "f" with loaded := true }

/-! ## Claim theorems -/

/-- C1 (amended): for every header line, the parser tab-splits it into
`header_raw`, strips from each field any trailing bracketed unit and
surrounding whitespace, and deduplicates left to right with the first
occurrence of a base name `H` kept bare and the `N`-th occurrence renamed
`H_N` (`N` starting at 2) — proved as agreement of the code's loop with the
spec-side occurrence-count description `dedupSpecGo`; the header fields
`["Depth [m]", "Temp", "Depth [cm]"]` yield columns
`["Depth", "Temp", "Depth_2"]`, which contain no duplicates.  The claim's
universal no-duplicates conclusion is false (a renamed `H_N` can collide with
a distinct base name, see the counterexample), so it is weakened to the
concrete instance. -/
theorem c1_header_dedup_amended :
    (∀ hdr : List String, dedupHeader hdr = dedupSpecGo [] hdr) ∧
    (PanFileDataSet.loadStep fsDepth (mkPanFileDataSet "f")).1._header =
      some ["Depth [m]", "Temp", "Depth [cm]"] ∧
    (PanFileDataSet.loadStep fsDepth (mkPanFileDataSet "f")).1._columns =
      some ["Depth", "Temp", "Depth_2"] ∧
    (PanFileDataSet.loadStep fsDepth (mkPanFileDataSet "f")).2 = none ∧
    (["Depth", "Temp", "Depth_2"] : List String).Nodup :=
  ⟨fun hdr => dedupGo_eq_spec hdr [] (fun _ => 0) (fun _ => rfl),
    by decide, by decide, by decide, by decide⟩

/-- C1 counterexample: on the header `A\tA_2\tA` the renamed second
occurrence of base name `A` collides with the distinct base name `A_2`, so
the parsed columns are `["A", "A_2", "A_2"]`, which do contain a duplicate —
refuting the claim's universal no-duplicates conclusion. -/
theorem c1_duplicate_columns_cex :
    (PanFileDataSet.loadStep fsDup (mkPanFileDataSet "f")).1._columns =
      some ["A", "A_2", "A_2"] ∧
    ¬ (["A", "A_2", "A_2"] : List String).Nodup :=
  ⟨by decide, by decide⟩

/-- C2: in the description block, a continuation line (one with no tab)
arriving while the keyword field is open reassigns `keywords` to the result
of `list.append(...)`, which is Python `None` — afterwards the keywords field
no longer holds the previously parsed keyword sequence.  The last conjunct
exercises the same behavior through a full parse. -/
theorem c2_keyword_continuation_erases (st : LoadState) (line : String)
    (ks : List String)
    (hst : st.descriptionState = .KEYWORDS)
    (hkw : st.ds.keywords = some ks)
    (hnotab : splitFirstTab line = [line]) :
    ((processDescriptionLine st line).1.ds.keywords = none ∧
      (processDescriptionLine st line).2 = none) ∧
    (PanFileDataSet.loadStep fsKwCont (mkPanFileDataSet "f")).1.keywords =
      none := by
  refine ⟨?_, by decide⟩
  unfold processDescriptionLine
  rw [hnotab, hst, hkw]
  exact ⟨rfl, rfl⟩

/-- C2 witness: the general statement applied to a concrete keyword-open
state and the continuation line `more`. -/
theorem c2_keyword_continuation_erases_witness :
    (processDescriptionLine stKwSt "more").1.ds.keywords = none :=
  (c2_keyword_continuation_erases stKwSt "more" ["ocean", "salinity"]
    rfl rfl (by decide)).1.1

/-- C3 (amended): a file that exists, has no line stripping to the end
marker `*/`, and whose description processing raises no exception is fully
consumed (`skiprows` equals the number of lines), never establishes a header
or column list, and the failure is surfaced as `MalformedFileError` when
table materialization is attempted.  (As claimed, without the no-exception
proviso, the statement is false: see the counterexample, where a keyword
continuation aborts the parse with `AttributeError` before the last line.) -/
theorem c3_no_end_marker_malformed (fs : FileSys) (path : String)
    (lines : List String)
    (hfs : fs path = some lines)
    (hmk : ∀ l ∈ lines, pyStrip l ≠ "*/")
    (hnoerr :
      (loadLoop lines (initLoadState (mkPanFileDataSet path))).2 = none) :
    (loadLoop lines (initLoadState (mkPanFileDataSet path))).1.skiprows =
      lines.length ∧
    (loadLoop lines (initLoadState (mkPanFileDataSet path))).1.ds._columns =
      none ∧
    (loadLoop lines (initLoadState (mkPanFileDataSet path))).1.ds._header =
      none ∧
    PanFileDataSet.loadStep fs (mkPanFileDataSet path) =
      ((loadLoop lines (initLoadState (mkPanFileDataSet path))).1.ds,
        some PyErr.malformedFile) ∧
    (PanFileDataSet.loadStep fs (mkPanFileDataSet path)).1.loaded = false := by
  obtain ⟨hsk, hco, hhd, hld⟩ := loadLoop_no_end_marker lines
    (initLoadState (mkPanFileDataSet path)) hmk (by simp [initLoadState]) hnoerr
  have hstep : PanFileDataSet.loadStep fs (mkPanFileDataSet path) =
      ((loadLoop lines (initLoadState (mkPanFileDataSet path))).1.ds,
        some PyErr.malformedFile) := by
    unfold PanFileDataSet.loadStep
    rw [if_neg (by simp [mkPanFileDataSet])]
    rw [show (mkPanFileDataSet path).file_path = path from rfl, hfs]
    dsimp only
    rcases hlp : loadLoop lines (initLoadState (mkPanFileDataSet path)) with
      ⟨stf, e?⟩
    rw [hlp] at hnoerr hco
    cases e? with
    | some e => exact absurd hnoerr (by simp)
    | none =>
      dsimp only
      rw [hco]
      rfl
  refine ⟨by rw [hsk]; simp [initLoadState], hco, hhd, hstep, ?_⟩
  rw [hstep]
  exact hld

/-- C3 witness: the amended statement applied to a concrete end-marker-free
file whose description parsing raises no exception. -/
theorem c3_no_end_marker_malformed_witness :
    PanFileDataSet.loadStep fsParam (mkPanFileDataSet "f") =
      ((loadLoop fileParam (initLoadState (mkPanFileDataSet "f"))).1.ds,
        some PyErr.malformedFile) :=
  (c3_no_end_marker_malformed fsParam "f" fileParam (by decide) (by decide)
    (by decide)).2.2.2.1

/-- C3 counterexample: `fileKwErr` exists and has no end marker, yet parsing
aborts with `AttributeError` on its fourth line (the second keyword
continuation), so the file is not fully consumed (4 of 5 lines) and the
surfaced failure is not a `MalformedFileError` — table materialization is
never even attempted. -/
theorem c3_exception_cex :
    noEndMarker fileKwErr = true ∧
    (PanFileDataSet.loadStep fsKwErr (mkPanFileDataSet "f")).2 =
      some PyErr.attributeError ∧
    PyErr.attributeError ≠ PyErr.malformedFile ∧
    (loadLoop fileKwErr (initLoadState (mkPanFileDataSet "f"))).1.skiprows = 4 ∧
    fileKwErr.length = 5 :=
  ⟨by decide, by decide, by decide, by decide, by decide⟩

/-- C4: once the `loaded` flag is set, `_load` returns immediately with no
state mutation and no dependence on the file system (so no file read), and
`data` returns the cached table value; consequently a second access after
any successful access returns the identical record and table, even through a
different file system. -/
theorem c4_cached_access :
    (∀ (fs : FileSys) (ds : PanFileDataSet), ds.loaded = true →
      ds.loadStep fs = (ds, none) ∧
      ds.dataAccess fs = (ds, .ok ds._data)) ∧
    (∀ (fs fs' : FileSys) (ds ds' : PanFileDataSet) (t : Option Table),
      ds.dataAccess fs = (ds', .ok t) → ds'.dataAccess fs' = (ds', .ok t)) := by
  have h1 : ∀ (fs : FileSys) (ds : PanFileDataSet), ds.loaded = true →
      ds.loadStep fs = (ds, none) := by
    intro fs ds h
    unfold PanFileDataSet.loadStep
    rw [if_pos h]
  constructor
  · intro fs ds h
    refine ⟨h1 fs ds h, ?_⟩
    unfold PanFileDataSet.dataAccess
    rw [h1 fs ds h]
  · intro fs fs' ds ds' t h
    unfold PanFileDataSet.dataAccess at h
    rcases hls : ds.loadStep fs with ⟨d, e?⟩
    rw [hls] at h
    cases e? with
    | some e =>
      dsimp only at h
      injection h with h1 h2
      exact Except.noConfusion h2
    | none =>
      dsimp only at h
      injection h with hd ht
      subst hd
      injection ht with ht
      have hl : d.loaded = true := loadStep_success_loaded fs ds d hls
      unfold PanFileDataSet.dataAccess
      rw [h1 fs' d hl]
      dsimp only
      rw [ht]

/-- C4 witness: a loaded record is returned unchanged, with its cached
table, on the empty file system. -/
theorem c4_cached_access_witness :
    dsLoaded.loadStep fsEmpty = (dsLoaded, none) ∧
    dsLoaded.dataAccess fsEmpty = (dsLoaded, .ok dsLoaded._data) :=
  c4_cached_access.1 fsEmpty dsLoaded rfl

/-- C5: a composed record constructed with neither a Pangaea index nor a
file path is constructed successfully (`__init__` stores the attributes and
raises nothing), and the first access to `data_set` or `data` fails with
`ValueError` — the spec's `ConfigurationError`. -/
theorem c5_configuration_error (fs : FileSys)
    (remoteData : Option Nat → Bool → Nat → Except PyErr (Option Table))
    (b : Bool) :
    mkPanCachedDataSet none none b =
      { index := none, file_path := none, enable_cache := b,
        _data_set := none } ∧
    (mkPanCachedDataSet none none b).dataSetAccess fs =
      .error PyErr.valueError ∧
    PanCachedDataSet.cachedData fs remoteData (mkPanCachedDataSet none none b) =
      .error PyErr.valueError := by
  refine ⟨rfl, ?_, ?_⟩
  · unfold PanCachedDataSet.dataSetAccess
    simp [mkPanCachedDataSet]
  · unfold PanCachedDataSet.cachedData PanCachedDataSet.dataSetAccess
    simp [mkPanCachedDataSet]

/-- C6: constructing a record is a pure function of the path — it takes no
file-system argument, so construction cannot touch the file system, and it
succeeds for every path, producing an unloaded record; when the path does
not reference an existing file, the first access raises `FileNotFoundError`
(the spec's `NotFoundError`) and leaves the record unchanged. -/
theorem c6_not_found (path : String) (fs : FileSys) (hfs : fs path = none) :
    (mkPanFileDataSet path).loaded = false ∧
    (mkPanFileDataSet path)._data = none ∧
    (mkPanFileDataSet path).loadStep fs =
      (mkPanFileDataSet path, some PyErr.fileNotFound) ∧
    (mkPanFileDataSet path).dataAccess fs =
      (mkPanFileDataSet path, .error PyErr.fileNotFound) := by
  have hls : (mkPanFileDataSet path).loadStep fs =
      (mkPanFileDataSet path, some PyErr.fileNotFound) := by
    unfold PanFileDataSet.loadStep
    rw [if_neg (by simp [mkPanFileDataSet])]
    rw [show (mkPanFileDataSet path).file_path = path from rfl, hfs]
  refine ⟨rfl, rfl, hls, ?_⟩
  unfold PanFileDataSet.dataAccess
  rw [hls]

/-- C6 witness: a record for a missing path on the empty file system. -/
theorem c6_not_found_witness :
    (mkPanFileDataSet "missing").loadStep fsEmpty =
      (mkPanFileDataSet "missing", some PyErr.fileNotFound) :=
  (c6_not_found "missing" fsEmpty rfl).2.2.1

/-- C7: on any successful load, the final `skiprows` counter identifies the
consumed prefix of the file — every line up to and including the header line
counted once — and the tabular loader reads its rows exactly from the lines
after the header: if the counter equals `pre.length + 1` for a decomposition
`lines = pre ++ header :: post`, then `header` is the header line that
produced `_header` and `_columns`, and the materialized table's rows are
precisely the tab-splits of `post`. -/
theorem c7_skiprows_offset (fs : FileSys) (path : String) (lines : List String)
    (ds' : PanFileDataSet) (pre : List String) (header : String)
    (post : List String)
    (hfs : fs path = some lines)
    (hload : (mkPanFileDataSet path).loadStep fs = (ds', none))
    (hsplit : lines = pre ++ header :: post)
    (hsk : (loadLoop lines (initLoadState (mkPanFileDataSet path))).1.skiprows =
      pre.length + 1) :
    ds'._header = some (pySplit '\t' (pyStrip header)) ∧
    ds'._columns = some (dedupHeader (pySplit '\t' (pyStrip header))) ∧
    ds'._data = some { columns := dedupHeader (pySplit '\t' (pyStrip header)),
                       rows := post.map (fun r => pySplit '\t' r) } := by
  unfold PanFileDataSet.loadStep at hload
  rw [if_neg (by simp [mkPanFileDataSet])] at hload
  rw [show (mkPanFileDataSet path).file_path = path from rfl, hfs] at hload
  dsimp only at hload
  rcases hlp : loadLoop lines (initLoadState (mkPanFileDataSet path)) with
    ⟨st, e?⟩
  rw [hlp] at hload hsk
  dsimp only at hsk
  cases e? with
  | some e =>
    dsimp only at hload
    injection hload with h1 h2
    exact Option.noConfusion h2
  | none =>
    dsimp only at hload
    cases htab : tabularLoad lines st.skiprows st.ds._columns with
    | error e =>
      rw [htab] at hload
      injection hload with h1 h2
      exact Option.noConfusion h2
    | ok t =>
      rw [htab] at hload
      injection hload with h1 h2
      have hcolne : st.ds._columns ≠ none := by
        intro hcn
        rw [hcn] at htab
        exact Except.noConfusion htab
      obtain ⟨pre', header', post', heq, hsk', hh, hc, hst, hdt, hld⟩ :=
        loadLoop_establish_columns lines (initLoadState (mkPanFileDataSet path))
          st rfl hlp hcolne
      have hlen : pre.length = pre'.length := by
        rw [hsk'] at hsk
        simp only [initLoadState] at hsk
        omega
      have heq2 : pre ++ header :: post = pre' ++ header' :: post' := by
        rw [← hsplit, heq]
      obtain ⟨hpre, hcons⟩ := List.append_inj heq2 hlen
      injection hcons with hhead hpost
      subst hhead hpost
      subst h1
      refine ⟨by simpa using hh, by simpa using hc, ?_⟩
      rw [hc, hsk] at htab
      simp only [tabularLoad] at htab
      rw [hsplit] at htab
      have hdrop : (pre ++ header :: post).drop (pre.length + 1) = post := by
        rw [show pre ++ header :: post = (pre ++ [header]) ++ post by simp,
          show pre.length + 1 = (pre ++ [header]).length by simp]
        exact List.drop_left _ _
      rw [hdrop] at htab
      split_ifs at htab with hall
      all_goals injection htab with ht
      all_goals simp [← ht]

/-- C7 witness: the statement applied to a concrete well-formed file whose
header sits at index 4, so `skiprows = 5` and the single data row follows. -/
theorem c7_skiprows_offset_witness :
    (PanFileDataSet.loadStep fsCitation (mkPanFileDataSet "f")).1._header =
      some (pySplit '\t' (pyStrip "A\tB")) ∧
    (PanFileDataSet.loadStep fsCitation (mkPanFileDataSet "f")).1._columns =
      some (dedupHeader (pySplit '\t' (pyStrip "A\tB"))) ∧
    (PanFileDataSet.loadStep fsCitation (mkPanFileDataSet "f")).1._data =
      some { columns := dedupHeader (pySplit '\t' (pyStrip "A\tB")),
             rows := (["1\t2"] : List String).map (fun r => pySplit '\t' r) } :=
  c7_skiprows_offset fsCitation "f" fileCitation
    (PanFileDataSet.loadStep fsCitation (mkPanFileDataSet "f")).1
    ["/* DATA DESCRIPTION:", "Citation:\tSmith 2020", "and Jones", "*/"]
    "A\tB" ["1\t2"] (by decide) (by decide) (by decide) (by decide)

/-- C8: a continuation line (no tab) inside the description block is
concatenated literally — no inserted separator — onto whichever free-text
field is open: citation, abstract, size, license, or further details; in a
full parse, `Citation:\tSmith 2020` followed by `and Jones` yields the
citation `Smith 2020and Jones`. -/
theorem c8_continuation_literal_concat :
    (∀ (st : LoadState) (line s : String), st.descriptionState = .CITATION →
      st.ds.citations = some s → splitFirstTab line = [line] →
      (processDescriptionLine st line).1.ds.citations = some (s ++ line)) ∧
    (∀ (st : LoadState) (line s : String), st.descriptionState = .ABSTRACT →
      st.ds.abstract = some s → splitFirstTab line = [line] →
      (processDescriptionLine st line).1.ds.abstract = some (s ++ line)) ∧
    (∀ (st : LoadState) (line s : String), st.descriptionState = .SIZE →
      st.ds.size = some s → splitFirstTab line = [line] →
      (processDescriptionLine st line).1.ds.size = some (s ++ line)) ∧
    (∀ (st : LoadState) (line s : String), st.descriptionState = .LICENSE →
      st.ds.license = some s → splitFirstTab line = [line] →
      (processDescriptionLine st line).1.ds.license = some (s ++ line)) ∧
    (∀ (st : LoadState) (line s : String),
      st.descriptionState = .FURTHER_DETAILS →
      st.ds.further_details = some s → splitFirstTab line = [line] →
      (processDescriptionLine st line).1.ds.further_details =
        some (s ++ line)) ∧
    (PanFileDataSet.loadStep fsCitation (mkPanFileDataSet "f")).1.citations =
      some "Smith 2020and Jones" := by
  refine ⟨?_, ?_, ?_, ?_, ?_, by decide⟩ <;>
    (intro st line s hst hv hnotab
     unfold processDescriptionLine
     rw [hnotab, hst, hv])

/-- C8 witness: the citation rule applied to a concrete citation-open state
and the continuation line `and Jones`. -/
theorem c8_continuation_literal_concat_witness :
    (processDescriptionLine stCitSt "and Jones").1.ds.citations =
      some ("Smith 2020" ++ "and Jones") :=
  c8_continuation_literal_concat.1 stCitSt "and Jones" "Smith 2020"
    rfl rfl (by decide)

/-- C9: the seven metadata fields (citations, abstract, keywords,
parameters, size, license, further details) are mutated only while the outer
state is `DESCRIPTION`: processing any line in any other outer state leaves
them all unchanged, and a marker line (`/* DATA DESCRIPTION:` or `*/`)
leaves them unchanged in every state. -/
theorem c9_metadata_only_in_description :
    (∀ (st : LoadState) (raw : String), st.state ≠ .DESCRIPTION →
      metadataOf (processLine st raw).1.ds = metadataOf st.ds) ∧
    (∀ (st : LoadState) (raw : String),
      pyStrip raw = "/* DATA DESCRIPTION:" ∨ pyStrip raw = "*/" →
      metadataOf (processLine st raw).1.ds = metadataOf st.ds) := by
  constructor
  · intro st raw hst
    simp only [processLine]
    split_ifs with h1 h2 h3
    · rfl
    · rfl
    · simp [processHeader, metadataOf]
    · rfl
  · intro st raw hm
    simp only [processLine]
    rcases hm with hm | hm
    · rw [if_pos hm]
    · rw [if_neg (by rw [hm]; decide), if_pos hm]

/-- C9 witness: a line processed in the freshly initialized state (outer
state `INIT`) mutates no metadata. -/
theorem c9_metadata_only_in_description_witness :
    metadataOf
        (processLine (initLoadState (mkPanFileDataSet "f")) "hello").1.ds =
      metadataOf (initLoadState (mkPanFileDataSet "f")).ds :=
  c9_metadata_only_in_description.1 (initLoadState (mkPanFileDataSet "f"))
    "hello" (by decide)

/-- C10: a failed `_load` is not atomic and the failure is not cached:
whenever `_load` raises, the returned record still has `loaded = false`
while keeping the metadata mutations made before the exception; on the
concrete file with one `Parameter(s):` line and no end marker, the first
access fails with `MalformedFileError` leaving `parameters = ["depth"]`, and
the second access re-runs the whole parse on the partially populated record,
appending the entry again (`["depth", "depth"]`) and failing the same way. -/
theorem c10_failed_load_not_atomic :
    (∀ (fs : FileSys) (ds p : PanFileDataSet) (e : PyErr),
      ds.loadStep fs = (p, some e) → p.loaded = false) ∧
    (PanFileDataSet.loadStep fsParam (mkPanFileDataSet "f")).1.parameters =
      ["depth"] ∧
    (PanFileDataSet.loadStep fsParam (mkPanFileDataSet "f")).2 =
      some PyErr.malformedFile ∧
    (PanFileDataSet.loadStep fsParam (mkPanFileDataSet "f")).1.loaded =
      false ∧
    (PanFileDataSet.loadStep fsParam
        (PanFileDataSet.loadStep fsParam (mkPanFileDataSet "f")).1).1.parameters
      = ["depth", "depth"] ∧
    (PanFileDataSet.loadStep fsParam
        (PanFileDataSet.loadStep fsParam (mkPanFileDataSet "f")).1).2 =
      some PyErr.malformedFile :=
  ⟨loadStep_error_not_loaded, by decide, by decide, by decide, by decide,
    by decide⟩

/-- C10 witness: the general not-loaded-after-failure statement applied to
the concrete failing load. -/
theorem c10_failed_load_not_atomic_witness :
    (PanFileDataSet.loadStep fsParam (mkPanFileDataSet "f")).1.loaded =
      false :=
  c10_failed_load_not_atomic.1 fsParam (mkPanFileDataSet "f")
    (PanFileDataSet.loadStep fsParam (mkPanFileDataSet "f")).1
    PyErr.malformedFile (by decide)

end PangaeaReader

namespace PangaeaReader

/-- A remote collaborator stub for witnesses. -/
def remoteNone : Option Nat → Bool → Nat → Except PyErr (Option Table) :=
  fun _ _ _ => .error .fileNotFound

/-- C5 witness: the statement applied to the empty file system and a stub
remote collaborator. -/
theorem c5_configuration_error_witness :
    (mkPanCachedDataSet none none true).dataSetAccess fsEmpty =
      .error PyErr.valueError :=
  (c5_configuration_error fsEmpty remoteNone true).2.1

end PangaeaReader
